import Mathlib

/-!
Verification of the gist tool handlers in `pkg/github/gists.go`.

The file shallowly embeds the three tool handlers (`GetGist`, `ListGists`,
`ListStarredGists`) as pure Lean functions.  Each handler in the Go source is
a function from an execution context and a call request to a pair
`(*mcp.CallToolResult, error)`; it consults an injected client factory
(`GetClientFn`) and performs at most one remote call through the returned
client.  The embedding makes the environment explicit: the factory outcome is
an `Except` value, the remote client is a record of functions giving, for
each remote method, the triple `(object, response, error)` that the go-github
client would return, and the handler additionally produces a trace of the
observable effects it performed (client acquisition, the remote call with its
arguments, reading the response body, closing the response body), so that
claims about which calls are issued and about body hygiene can be stated.
-/

/-- JSON values, standing for the `interface` values that `encoding/json`
serialises and for tool-call argument values. -/
inductive JValue where
  | jNull : JValue
  | jBool : Bool → JValue
  | jNum : Int → JValue
  | jStr : String → JValue
  | jArr : List JValue → JValue
  | jObj : List (String × JValue) → JValue

deriving instance DecidableEq for Except

/-- Escaping of a single character inside a JSON string, as performed by Go
`encoding/json` (quotes, backslash, common control characters, and the HTML
characters that the default encoder escapes as unicode sequences). -/
def escapeChar (c : Char) : String :=
  if c = '"' then "\\\""
  else if c = '\\' then "\\\\"
  else if c = '\n' then "\\n"
  else if c = '\t' then "\\t"
  else if c = '\r' then "\\r"
  else if c = '<' then "\\u003c"
  else if c = '>' then "\\u003e"
  else if c = '&' then "\\u0026"
  else String.singleton c

/-- Escaping of a JSON string body, character by character. -/
def escapeString (s : String) : String :=
  String.join (s.toList.map escapeChar)

mutual

/-- Go `json.Marshal` on a JSON value: the exact serialised text, with object
fields kept in the order the encoder produces them.  Marshalling a JSON value
cannot fail, so the source's marshal-error branch is unreachable for the
values this embedding ranges over. -/
def jsonMarshal : JValue → String
  | .jNull => "null"
  | .jBool true => "true"
  | .jBool false => "false"
  | .jNum n => toString n
  | .jStr s => "\"" ++ escapeString s ++ "\""
  | .jArr xs => "[" ++ String.intercalate "," (jsonMarshalList xs) ++ "]"
  | .jObj fs => "\x7b" ++ String.intercalate "," (jsonMarshalFields fs) ++ "\x7d"

/-- Serialisation of a list of JSON values (array elements). -/
def jsonMarshalList : List JValue → List String
  | [] => []
  | x :: xs => jsonMarshal x :: jsonMarshalList xs

/-- Serialisation of the fields of a JSON object, in order. -/
def jsonMarshalFields : List (String × JValue) → List String
  | [] => []
  | (k, v) :: fs =>
      ("\"" ++ escapeString k ++ "\":" ++ jsonMarshal v) :: jsonMarshalFields fs

end

/-- An `mcp.CallToolRequest`: the arguments mapping of one invocation. -/
structure CallToolRequest where
  arguments : List (String × JValue)

/-- Lookup of an argument by name (`request.Params.Arguments[p]`). -/
def lookupArg (request : CallToolRequest) (p : String) : Option JValue :=
  match request.arguments.find? (fun kv => kv.1 = p) with
  | none => none
  | some kv => some kv.2

/-- An `*mcp.CallToolResult`: either a text result (`mcp.NewToolResultText`)
or a structured error result (`mcp.NewToolResultError`). -/
inductive ToolResult where
  | textContent : String → ToolResult
  | errorContent : String → ToolResult
deriving DecidableEq, Repr

/-- The `*github.Response` as the handlers observe it: the status code and
the outcome of `io.ReadAll` on the body (reading the body may itself fail,
which the source handles as a distinct branch). -/
structure HTTPResponse where
  statusCode : Nat
  body : Except String String
deriving DecidableEq, Repr

/-- The triple returned by a go-github call such as `client.Gists.Get`:
the decoded object, the HTTP response, and the error (`nil` or not).  When
`err` is not `none` the handlers return before touching `resp`, so modelling
`resp` as always present is faithful to every path the source takes. -/
structure RemoteResult where
  obj : JValue
  resp : HTTPResponse
  err : Option String

/-- The `*github.GistListOptions` options, as far as this code is concerned: the
pagination fields.  The source always passes `nil` for it. -/
structure GistListOptions where
  page : Int
  perPage : Int
deriving DecidableEq, Repr

/-- The gists service of the remote client: the two methods the handlers in
this file invoke.  `get` is `client.Gists.Get(ctx, gistID)`; `listStarred` is
`client.Gists.ListStarred(ctx, opt)` where `none` stands for a `nil`
options pointer. -/
structure GistsClient where
  get : String → RemoteResult
  listStarred : Option GistListOptions → RemoteResult

/-- Observable effects of one handler invocation, in order: acquiring the
client from the factory, issuing a remote call with its arguments, reading
the response body (`io.ReadAll`), and closing the response body. -/
inductive Event where
  | acquireClient : Event
  | callGet : String → Event
  | callListStarred : Option GistListOptions → Event
  | bodyRead : Event
  | bodyClose : Event
deriving DecidableEq, Repr

/-- The full outcome of one handler invocation: the
`(*mcp.CallToolResult, error)` pair together with the effect trace. -/
structure HandlerOutput where
  result : Option ToolResult
  err : Option String
  trace : List Event
deriving DecidableEq, Repr

/-- Modelled from the spec: the repository's generic `requiredParam[string]`
helper is not part of the provided sources (only its call site in
`gists.go` is).  Per the spec, the parameter must be present, of string
type, and non-empty; absence or type mismatch fails with a validation error
before any network call. -/
def requiredParamString (request : CallToolRequest) (p : String) :
    Except String String :=
  match lookupArg request p with
  | none => .error ("missing required parameter: " ++ p)
  | some (.jStr s) =>
      if s = "" then .error ("missing required parameter: " ++ p)
      else .ok s
  | some _ => .error ("parameter " ++ p ++ " is not of type string")

/-- Schema types a tool parameter can declare (`mcp.WithNumber` declares a
number, `mcp.WithString` a string). -/
inductive SchemaType where
  | number : SchemaType
  | string : SchemaType
  | boolean : SchemaType
deriving DecidableEq, Repr

/-- One declared tool parameter: name, schema type, required flag. -/
structure ToolParam where
  name : String
  type : SchemaType
  required : Bool
deriving DecidableEq, Repr

/-- A tool descriptor, as far as the claims need it: its name and its
declared parameters. -/
structure Tool where
  name : String
  params : List ToolParam
deriving DecidableEq, Repr

/-- The descriptor built by `GetGist`: `mcp.NewTool("get_gist", ...)` with
`mcp.WithNumber("gist_id", mcp.Required(), ...)` — the single parameter is
declared with a numeric schema type and marked required. -/
def getGistTool : Tool :=
  { name := "get_gist"
    params := [{ name := "gist_id", type := SchemaType.number, required := true }] }

/-- The handler returned by `GetGist`: extract `gist_id` as a string, acquire
the client, issue `client.Gists.Get`, classify the response.  The `defer`
closing the body is installed only after the call-error check, so the close
event appears on exactly the paths the source closes the body on. -/
def getGistHandler (getClient : Except String GistsClient)
    (request : CallToolRequest) : HandlerOutput :=
  match requiredParamString request "gist_id" with
  | .error e => { result := some (.errorContent e), err := none, trace := [] }
  | .ok gistID =>
    match getClient with
    | .error e =>
        { result := none
          err := some ("failed to get GitHub client: " ++ e)
          trace := [.acquireClient] }
    | .ok client =>
        let r := client.get gistID
        let t : List Event := [.acquireClient, .callGet gistID]
        match r.err with
        | some e =>
            { result := none
              err := some ("failed to get gist: " ++ e)
              trace := t }
        | none =>
            if r.resp.statusCode ≠ 200 then
              match r.resp.body with
              | .error e =>
                  { result := none
                    err := some ("failed to read response body: " ++ e)
                    trace := t ++ [.bodyRead, .bodyClose] }
              | .ok b =>
                  { result := some (.errorContent ("failed to get gist: " ++ b))
                    err := none
                    trace := t ++ [.bodyRead, .bodyClose] }
            else
              { result := some (.textContent (jsonMarshal r.obj))
                err := none
                trace := t ++ [.bodyClose] }

/-- The handler returned by `ListGists`: it ignores the request entirely
(the binder is `_` in the source), acquires the client, and issues
`client.Gists.ListStarred(ctx, nil)` — note: `ListStarred`, not a
list-all-gists call, and with a `nil` options pointer. -/
def listGistsHandler (getClient : Except String GistsClient)
    (_request : CallToolRequest) : HandlerOutput :=
  match getClient with
  | .error e =>
      { result := none
        err := some ("failed to get GitHub client: " ++ e)
        trace := [.acquireClient] }
  | .ok client =>
      let r := client.listStarred none
      let t : List Event := [.acquireClient, .callListStarred none]
      match r.err with
      | some e =>
          { result := none
            err := some ("failed to list gists: " ++ e)
            trace := t }
      | none =>
          if r.resp.statusCode ≠ 200 then
            match r.resp.body with
            | .error e =>
                { result := none
                  err := some ("failed to read response body: " ++ e)
                  trace := t ++ [.bodyRead, .bodyClose] }
            | .ok b =>
                { result := some (.errorContent ("failed to list gists: " ++ b))
                  err := none
                  trace := t ++ [.bodyRead, .bodyClose] }
          else
            { result := some (.textContent (jsonMarshal r.obj))
              err := none
              trace := t ++ [.bodyClose] }

/-- The handler returned by `ListStarredGists`: identical to the
`ListGists` handler except for the error-message text; it also ignores the
request and issues `client.Gists.ListStarred(ctx, nil)`. -/
def listStarredGistsHandler (getClient : Except String GistsClient)
    (_request : CallToolRequest) : HandlerOutput :=
  match getClient with
  | .error e =>
      { result := none
        err := some ("failed to get GitHub client: " ++ e)
        trace := [.acquireClient] }
  | .ok client =>
      let r := client.listStarred none
      let t : List Event := [.acquireClient, .callListStarred none]
      match r.err with
      | some e =>
          { result := none
            err := some ("failed to list starred gists: " ++ e)
            trace := t }
      | none =>
          if r.resp.statusCode ≠ 200 then
            match r.resp.body with
            | .error e =>
                { result := none
                  err := some ("failed to read response body: " ++ e)
                  trace := t ++ [.bodyRead, .bodyClose] }
            | .ok b =>
                { result := some (.errorContent ("failed to list starred gists: " ++ b))
                  err := none
                  trace := t ++ [.bodyRead, .bodyClose] }
          else
            { result := some (.textContent (jsonMarshal r.obj))
              err := none
              trace := t ++ [.bodyClose] }

/-- Whether an event is a remote network call. -/
def isNetworkCall : Event → Bool
  | .callGet _ => true
  | .callListStarred _ => true
  | _ => false

/-- The remote network calls recorded in an invocation trace, in order. -/
def networkCallsOf (o : HandlerOutput) : List Event :=
  o.trace.filter isNetworkCall

/-- Spec-side definition, used only for the comparison in the pagination
claim: the list options that would result from forwarding the request's
`page` and `perPage` parameters unchanged to the remote call, per the
spec's words. -/
def specForwardedOpts (request : CallToolRequest) : Option GistListOptions :=
  match lookupArg request "page", lookupArg request "perPage" with
  | some (.jNum p), some (.jNum pp) => some { page := p, perPage := pp }
  | _, _ => none

/-- Exactly one component of the `(result, error)` pair is non-nil. -/
def exactlyOneOutcome (o : HandlerOutput) : Prop :=
  (o.result.isSome = true ∧ o.err = none) ∨ (o.result = none ∧ o.err.isSome = true)

/-- The number of remote network calls an invocation issued. -/
def networkCallCount (o : HandlerOutput) : Nat :=
  (networkCallsOf o).length

/-- The gist object of the concrete test scenario. -/
def demoObj : JValue := .jObj [("id", .jStr "42"), ("description", .jStr "demo")]

/-- A request carrying a valid string `gist_id`. -/
def demoRequest : CallToolRequest := { arguments := [("gist_id", .jStr "42")] }

/-- A request carrying only pagination arguments. -/
def pageRequest : CallToolRequest :=
  { arguments := [("page", .jNum 2), ("perPage", .jNum 5)] }

/-- A request carrying a numeric `gist_id`, as the declared schema invites. -/
def numericRequest : CallToolRequest := { arguments := [("gist_id", .jNum 7)] }

/-- A fake client whose calls always succeed with status 200. -/
def okGetClient : GistsClient :=
  { get := fun _ =>
      { obj := demoObj, resp := { statusCode := 200, body := .ok "" }, err := none }
    listStarred := fun _ =>
      { obj := .jArr [demoObj], resp := { statusCode := 200, body := .ok "" },
        err := none } }

/-- A fake client whose calls come back with a non-200 status and the body
text of the spec's scenario. -/
def rateLimitedClient : GistsClient :=
  { get := fun _ =>
      { obj := .jNull, resp := { statusCode := 403, body := .ok "rate limited" },
        err := none }
    listStarred := fun _ =>
      { obj := .jNull, resp := { statusCode := 403, body := .ok "rate limited" },
        err := none } }

/-- A fake client whose calls fail at the transport level. -/
def transportFailClient : GistsClient :=
  { get := fun _ =>
      { obj := .jNull, resp := { statusCode := 200, body := .ok "" },
        err := some "connection reset" }
    listStarred := fun _ =>
      { obj := .jNull, resp := { statusCode := 200, body := .ok "" },
        err := some "connection reset" } }

/-- C9: every invocation of any of the three handlers returns exactly one
non-nil component of the `(result, hard error)` pair: a single complete
result with nil error, or a nil result with a non-nil error; never both and
never neither. -/
theorem gists_C9 :
    ∀ (gc : Except String GistsClient) (req : CallToolRequest),
      exactlyOneOutcome (getGistHandler gc req) ∧
      exactlyOneOutcome (listGistsHandler gc req) ∧
      exactlyOneOutcome (listStarredGistsHandler gc req) := by
  intro gc req
  refine ⟨?_, ?_, ?_⟩
  · unfold getGistHandler exactlyOneOutcome
    cases hv : requiredParamString req "gist_id" with
    | error e => simp
    | ok gid =>
      cases gc with
      | error e => simp
      | ok c =>
        cases herr : (c.get gid).err with
        | some e => simp [herr]
        | none =>
          by_cases h200 : (c.get gid).resp.statusCode = 200
          · simp [herr, h200]
          · cases hb : (c.get gid).resp.body with
            | error e => simp [herr, h200, hb]
            | ok b => simp [herr, h200, hb]
  · unfold listGistsHandler exactlyOneOutcome
    cases gc with
    | error e => simp
    | ok c =>
      cases herr : (c.listStarred none).err with
      | some e => simp [herr]
      | none =>
        by_cases h200 : (c.listStarred none).resp.statusCode = 200
        · simp [herr, h200]
        · cases hb : (c.listStarred none).resp.body with
          | error e => simp [herr, h200, hb]
          | ok b => simp [herr, h200, hb]
  · unfold listStarredGistsHandler exactlyOneOutcome
    cases gc with
    | error e => simp
    | ok c =>
      cases herr : (c.listStarred none).err with
      | some e => simp [herr]
      | none =>
        by_cases h200 : (c.listStarred none).resp.statusCode = 200
        · simp [herr, h200]
        · cases hb : (c.listStarred none).resp.body with
          | error e => simp [herr, h200, hb]
          | ok b => simp [herr, h200, hb]

/-- C4: a validation failure on the required parameter short-circuits:
`GetGist` returns a structured validation-error result with nil hard error
and an empty effect trace (no client acquisition, no network call), and a
`gist_id` that is absent, the empty string, or not a string each fail
validation.  The two list handlers declare no required parameters, so the
property is vacuous for them. -/
theorem gists_C4 :
    (∀ (gc : Except String GistsClient) (req : CallToolRequest) (e : String),
       requiredParamString req "gist_id" = .error e →
       getGistHandler gc req =
         { result := some (.errorContent e), err := none, trace := [] }) ∧
    (∀ (req : CallToolRequest),
       (lookupArg req "gist_id" = none ∨
        lookupArg req "gist_id" = some (.jStr "") ∨
        (∃ v, lookupArg req "gist_id" = some v ∧ ∀ s, v ≠ .jStr s)) →
       ∃ e, requiredParamString req "gist_id" = .error e) := by
  constructor
  · intro gc req e h
    simp [getGistHandler, h]
  · intro req h
    rcases h with h | h | ⟨v, hv, hns⟩
    · exact ⟨_, by unfold requiredParamString; rw [h]⟩
    · exact ⟨_, by unfold requiredParamString; rw [h]; rfl⟩
    · cases v with
      | jStr s => exact absurd rfl (hns s)
      | jNull => exact ⟨_, by unfold requiredParamString; rw [hv]⟩
      | jBool b => exact ⟨_, by unfold requiredParamString; rw [hv]⟩
      | jNum n => exact ⟨_, by unfold requiredParamString; rw [hv]⟩
      | jArr xs => exact ⟨_, by unfold requiredParamString; rw [hv]⟩
      | jObj fs => exact ⟨_, by unfold requiredParamString; rw [hv]⟩

/-- Witness for C4 at a concrete input: an empty-argument request fails
validation and the handler returns the structured error untouched by any
client. -/
theorem gists_C4_witness :
    requiredParamString { arguments := [] } "gist_id" =
      .error "missing required parameter: gist_id" ∧
    getGistHandler (.ok okGetClient) { arguments := [] } =
      { result := some (.errorContent "missing required parameter: gist_id")
        err := none, trace := [] } := by
  refine ⟨rfl, ?_⟩
  exact gists_C4.1 (.ok okGetClient) { arguments := [] } _ rfl

/-- C5: when the client factory fails with error `E`, every handler returns
a nil result and a hard error whose message is
"failed to get GitHub client: " followed by `E`, and no network call is
issued (for `GetGist`, on any request that passes validation; the list
handlers reach the factory unconditionally). -/
theorem gists_C5 :
    ∀ (e : String) (req : CallToolRequest),
      (∀ gid, requiredParamString req "gist_id" = .ok gid →
         getGistHandler (.error e) req =
           { result := none, err := some ("failed to get GitHub client: " ++ e)
             trace := [.acquireClient] }) ∧
      networkCallsOf (getGistHandler (.error e) req) = [] ∧
      listGistsHandler (.error e) req =
        { result := none, err := some ("failed to get GitHub client: " ++ e)
          trace := [.acquireClient] } ∧
      networkCallsOf (listGistsHandler (.error e) req) = [] ∧
      listStarredGistsHandler (.error e) req =
        { result := none, err := some ("failed to get GitHub client: " ++ e)
          trace := [.acquireClient] } ∧
      networkCallsOf (listStarredGistsHandler (.error e) req) = [] := by
  intro e req
  refine ⟨?_, ?_, rfl, rfl, rfl, rfl⟩
  · intro gid h
    simp [getGistHandler, h]
  · cases hv : requiredParamString req "gist_id" with
    | error m => simp [getGistHandler, hv, networkCallsOf, isNetworkCall]
    | ok gid => simp [getGistHandler, hv, networkCallsOf, isNetworkCall]

/-- Witness for C5 at a concrete input: a factory failing with "boom" makes
`GetGist` on a valid request return the wrapped hard error and nil result. -/
theorem gists_C5_witness :
    requiredParamString demoRequest "gist_id" = .ok "42" ∧
    getGistHandler (.error "boom") demoRequest =
      { result := none, err := some "failed to get GitHub client: boom"
        trace := [.acquireClient] } ∧
    networkCallsOf (getGistHandler (.error "boom") demoRequest) = [] := by
  refine ⟨rfl, ?_, ((gists_C5 "boom" demoRequest).2.1)⟩
  have h := (gists_C5 "boom" demoRequest).1 "42" rfl
  have e : "failed to get GitHub client: " ++ "boom" =
      "failed to get GitHub client: boom" := by decide
  rw [e] at h
  exact h

/-- C2: when the remote call returns with nil error and a non-200 status and
the body reads as `B`, each handler returns a structured error result (nil
hard error) whose message is its operation-specific message head followed by
`B` verbatim. -/
theorem gists_C2 :
    (∀ (c : GistsClient) (req : CallToolRequest) (gid B : String),
       requiredParamString req "gist_id" = .ok gid →
       (c.get gid).err = none →
       (c.get gid).resp.statusCode ≠ 200 →
       (c.get gid).resp.body = .ok B →
       (getGistHandler (.ok c) req).result =
         some (.errorContent ("failed to get gist: " ++ B)) ∧
       (getGistHandler (.ok c) req).err = none) ∧
    (∀ (c : GistsClient) (req : CallToolRequest) (B : String),
       (c.listStarred none).err = none →
       (c.listStarred none).resp.statusCode ≠ 200 →
       (c.listStarred none).resp.body = .ok B →
       (listGistsHandler (.ok c) req).result =
         some (.errorContent ("failed to list gists: " ++ B)) ∧
       (listGistsHandler (.ok c) req).err = none) ∧
    (∀ (c : GistsClient) (req : CallToolRequest) (B : String),
       (c.listStarred none).err = none →
       (c.listStarred none).resp.statusCode ≠ 200 →
       (c.listStarred none).resp.body = .ok B →
       (listStarredGistsHandler (.ok c) req).result =
         some (.errorContent ("failed to list starred gists: " ++ B)) ∧
       (listStarredGistsHandler (.ok c) req).err = none) := by
  refine ⟨?_, ?_, ?_⟩
  · intro c req gid B hv herr h200 hb
    simp [getGistHandler, hv, herr, h200, hb]
  · intro c req B herr h200 hb
    simp [listGistsHandler, herr, h200, hb]
  · intro c req B herr h200 hb
    simp [listStarredGistsHandler, herr, h200, hb]

/-- Witness for C2 at the spec's concrete scenario: a 403 response with body
"rate limited" makes `GetGist` return the structured error
"failed to get gist: rate limited" with nil hard error. -/
theorem gists_C2_witness :
    requiredParamString demoRequest "gist_id" = .ok "42" ∧
    (rateLimitedClient.get "42").resp.statusCode ≠ 200 ∧
    (getGistHandler (.ok rateLimitedClient) demoRequest).result =
      some (.errorContent "failed to get gist: rate limited") ∧
    (getGistHandler (.ok rateLimitedClient) demoRequest).err = none := by
  refine ⟨rfl, by decide, ?_, ?_⟩
  · have h := (gists_C2.1 rateLimitedClient demoRequest "42" "rate limited"
      rfl rfl (by decide) rfl).1
    have e : "failed to get gist: " ++ "rate limited" =
        "failed to get gist: rate limited" := by decide
    rw [e] at h
    exact h
  · exact (gists_C2.1 rateLimitedClient demoRequest "42" "rate limited"
      rfl rfl (by decide) rfl).2

/-- C3: when the remote call returns with nil error and status 200, each
handler returns as its success payload exactly the JSON serialisation of the
returned object (or list), with nil hard error and no post-processing. -/
theorem gists_C3 :
    (∀ (c : GistsClient) (req : CallToolRequest) (gid : String),
       requiredParamString req "gist_id" = .ok gid →
       (c.get gid).err = none →
       (c.get gid).resp.statusCode = 200 →
       (getGistHandler (.ok c) req).result =
         some (.textContent (jsonMarshal (c.get gid).obj)) ∧
       (getGistHandler (.ok c) req).err = none) ∧
    (∀ (c : GistsClient) (req : CallToolRequest),
       (c.listStarred none).err = none →
       (c.listStarred none).resp.statusCode = 200 →
       (listGistsHandler (.ok c) req).result =
         some (.textContent (jsonMarshal (c.listStarred none).obj)) ∧
       (listGistsHandler (.ok c) req).err = none) ∧
    (∀ (c : GistsClient) (req : CallToolRequest),
       (c.listStarred none).err = none →
       (c.listStarred none).resp.statusCode = 200 →
       (listStarredGistsHandler (.ok c) req).result =
         some (.textContent (jsonMarshal (c.listStarred none).obj)) ∧
       (listStarredGistsHandler (.ok c) req).err = none) := by
  refine ⟨?_, ?_, ?_⟩
  · intro c req gid hv herr h200
    simp [getGistHandler, hv, herr, h200]
  · intro c req herr h200
    simp [listGistsHandler, herr, h200]
  · intro c req herr h200
    simp [listStarredGistsHandler, herr, h200]

/-- Witness for C3 at the spec's concrete scenario: `gist_id="42"` and a fake
client returning the demo object at 200 yield the literal serialised bytes as
the success payload. -/
theorem gists_C3_witness :
    requiredParamString demoRequest "gist_id" = .ok "42" ∧
    (okGetClient.get "42").resp.statusCode = 200 ∧
    (getGistHandler (.ok okGetClient) demoRequest).result =
      some (.textContent "\x7b\"id\":\"42\",\"description\":\"demo\"\x7d") ∧
    (getGistHandler (.ok okGetClient) demoRequest).err = none := by
  refine ⟨rfl, rfl, ?_, ?_⟩
  · have h := (gists_C3.1 okGetClient demoRequest "42" rfl rfl rfl).1
    have e : jsonMarshal (okGetClient.get "42").obj =
        "\x7b\"id\":\"42\",\"description\":\"demo\"\x7d" := by decide
    rw [e] at h
    exact h
  · exact (gists_C3.1 okGetClient demoRequest "42" rfl rfl rfl).2

/-- C1: for every client the factory can return and any requests, the
`ListGists` handler and the `ListStarredGists` handler issue the identical
underlying remote call — `Gists.ListStarred` with a nil options pointer —
and on a 200 response both return the same success payload, the JSON
serialisation of the same returned list; on a non-200 response their
structured error messages differ only in the operation-specific message
head preceding the same body text. -/
theorem gists_C1 :
    ∀ (c : GistsClient) (reqA reqB : CallToolRequest),
      networkCallsOf (listGistsHandler (.ok c) reqA) =
        [.callListStarred none] ∧
      networkCallsOf (listStarredGistsHandler (.ok c) reqB) =
        [.callListStarred none] ∧
      ((c.listStarred none).err = none →
       (c.listStarred none).resp.statusCode = 200 →
         (listGistsHandler (.ok c) reqA).result =
           (listStarredGistsHandler (.ok c) reqB).result ∧
         (listGistsHandler (.ok c) reqA).result =
           some (.textContent (jsonMarshal (c.listStarred none).obj))) ∧
      (∀ B, (c.listStarred none).err = none →
       (c.listStarred none).resp.statusCode ≠ 200 →
       (c.listStarred none).resp.body = .ok B →
         (listGistsHandler (.ok c) reqA).result =
           some (.errorContent ("failed to list gists: " ++ B)) ∧
         (listStarredGistsHandler (.ok c) reqB).result =
           some (.errorContent ("failed to list starred gists: " ++ B))) := by
  intro c reqA reqB
  refine ⟨?_, ?_, ?_, ?_⟩
  · unfold listGistsHandler
    cases herr : (c.listStarred none).err with
    | some e => simp [networkCallsOf, isNetworkCall, herr]
    | none =>
      by_cases h200 : (c.listStarred none).resp.statusCode = 200
      · simp [networkCallsOf, isNetworkCall, herr, h200]
      · cases hb : (c.listStarred none).resp.body with
        | error e => simp [networkCallsOf, isNetworkCall, herr, h200, hb]
        | ok b => simp [networkCallsOf, isNetworkCall, herr, h200, hb]
  · unfold listStarredGistsHandler
    cases herr : (c.listStarred none).err with
    | some e => simp [networkCallsOf, isNetworkCall, herr]
    | none =>
      by_cases h200 : (c.listStarred none).resp.statusCode = 200
      · simp [networkCallsOf, isNetworkCall, herr, h200]
      · cases hb : (c.listStarred none).resp.body with
        | error e => simp [networkCallsOf, isNetworkCall, herr, h200, hb]
        | ok b => simp [networkCallsOf, isNetworkCall, herr, h200, hb]
  · intro herr h200
    constructor
    · simp [listGistsHandler, listStarredGistsHandler, herr, h200]
    · simp [listGistsHandler, herr, h200]
  · intro B herr h200 hb
    constructor
    · simp [listGistsHandler, herr, h200, hb]
    · simp [listStarredGistsHandler, herr, h200, hb]

/-- Witness for C1 at a concrete input: with a 200-status fake client both
list handlers return the same payload, and the hypotheses of the theorem
hold at that client. -/
theorem gists_C1_witness :
    (okGetClient.listStarred none).err = none ∧
    (okGetClient.listStarred none).resp.statusCode = 200 ∧
    networkCallsOf (listGistsHandler (.ok okGetClient) demoRequest) =
      [.callListStarred none] ∧
    (listGistsHandler (.ok okGetClient) demoRequest).result =
      (listStarredGistsHandler (.ok okGetClient) demoRequest).result := by
  refine ⟨rfl, rfl, ?_, ?_⟩
  · exact (gists_C1 okGetClient demoRequest demoRequest).1
  · exact ((gists_C1 okGetClient demoRequest demoRequest).2.2.1 rfl rfl).1

/-- Counterexample for C6: the claim that the response body is fully drained
and closed on every branch fails at concrete inputs.  On a transport error a
network call was issued, yet the handler returns without ever closing the
body (the source installs the closing defer only after the error check); and
on the success branch the body is closed but never read, so it is not
drained. -/
theorem gists_C6_counterexample :
    (Event.callGet "42" ∈
       (getGistHandler (.ok transportFailClient) demoRequest).trace ∧
     Event.bodyClose ∉
       (getGistHandler (.ok transportFailClient) demoRequest).trace) ∧
    (Event.callGet "42" ∈
       (getGistHandler (.ok okGetClient) demoRequest).trace ∧
     Event.bodyRead ∉
       (getGistHandler (.ok okGetClient) demoRequest).trace) := by decide

/-- C6 as amended: whenever the remote call itself returns with nil error,
the handler closes the response body before returning, on every branch
(non-200 with readable body, non-200 with unreadable body, and success), and
it reads the body to its end exactly on the non-200 branches; when the
remote call returns a transport error, the handler returns without closing
the body. -/
theorem gists_C6_amended :
    (∀ (c : GistsClient) (req : CallToolRequest) (gid : String),
       requiredParamString req "gist_id" = .ok gid →
       ((c.get gid).err = none →
          Event.bodyClose ∈ (getGistHandler (.ok c) req).trace ∧
          (Event.bodyRead ∈ (getGistHandler (.ok c) req).trace ↔
            (c.get gid).resp.statusCode ≠ 200)) ∧
       ((c.get gid).err ≠ none →
          Event.bodyClose ∉ (getGistHandler (.ok c) req).trace)) ∧
    (∀ (c : GistsClient) (req : CallToolRequest),
       ((c.listStarred none).err = none →
          Event.bodyClose ∈ (listGistsHandler (.ok c) req).trace ∧
          (Event.bodyRead ∈ (listGistsHandler (.ok c) req).trace ↔
            (c.listStarred none).resp.statusCode ≠ 200)) ∧
       ((c.listStarred none).err ≠ none →
          Event.bodyClose ∉ (listGistsHandler (.ok c) req).trace)) ∧
    (∀ (c : GistsClient) (req : CallToolRequest),
       ((c.listStarred none).err = none →
          Event.bodyClose ∈ (listStarredGistsHandler (.ok c) req).trace ∧
          (Event.bodyRead ∈ (listStarredGistsHandler (.ok c) req).trace ↔
            (c.listStarred none).resp.statusCode ≠ 200)) ∧
       ((c.listStarred none).err ≠ none →
          Event.bodyClose ∉ (listStarredGistsHandler (.ok c) req).trace)) := by
  refine ⟨?_, ?_, ?_⟩
  · intro c req gid hv
    constructor
    · intro herr
      by_cases h200 : (c.get gid).resp.statusCode = 200
      · simp [getGistHandler, hv, herr, h200]
      · cases hb : (c.get gid).resp.body with
        | error e => simp [getGistHandler, hv, herr, h200, hb]
        | ok b => simp [getGistHandler, hv, herr, h200, hb]
    · intro herr
      cases he : (c.get gid).err with
      | none => exact absurd he herr
      | some e => simp [getGistHandler, hv, he]
  · intro c req
    constructor
    · intro herr
      by_cases h200 : (c.listStarred none).resp.statusCode = 200
      · simp [listGistsHandler, herr, h200]
      · cases hb : (c.listStarred none).resp.body with
        | error e => simp [listGistsHandler, herr, h200, hb]
        | ok b => simp [listGistsHandler, herr, h200, hb]
    · intro herr
      cases he : (c.listStarred none).err with
      | none => exact absurd he herr
      | some e => simp [listGistsHandler, he]
  · intro c req
    constructor
    · intro herr
      by_cases h200 : (c.listStarred none).resp.statusCode = 200
      · simp [listStarredGistsHandler, herr, h200]
      · cases hb : (c.listStarred none).resp.body with
        | error e => simp [listStarredGistsHandler, herr, h200, hb]
        | ok b => simp [listStarredGistsHandler, herr, h200, hb]
    · intro herr
      cases he : (c.listStarred none).err with
      | none => exact absurd he herr
      | some e => simp [listStarredGistsHandler, he]

/-- Witness for the amended C6 at concrete inputs: with the 403 fake client
the remote call returns with nil error, and `GetGist` both reads and closes
the body; with the transport-failure client the body is never closed. -/
theorem gists_C6_amended_witness :
    requiredParamString demoRequest "gist_id" = .ok "42" ∧
    (rateLimitedClient.get "42").err = none ∧
    Event.bodyClose ∈
      (getGistHandler (.ok rateLimitedClient) demoRequest).trace ∧
    Event.bodyRead ∈
      (getGistHandler (.ok rateLimitedClient) demoRequest).trace ∧
    (transportFailClient.get "42").err ≠ none ∧
    Event.bodyClose ∉
      (getGistHandler (.ok transportFailClient) demoRequest).trace := by
  have h := (gists_C6_amended.1 rateLimitedClient demoRequest "42" rfl).1 rfl
  have h2 := (gists_C6_amended.1 transportFailClient demoRequest "42" rfl).2
    (by decide)
  exact ⟨rfl, rfl, h.1, h.2.mpr (by decide), by decide, h2⟩

/-- Counterexample for C7: the pagination parameters supplied in the request
are not forwarded to the remote list call.  At a request carrying page 2 and
page size 5, the handler issues the list call with a nil options pointer,
and no call carrying the request's pagination options appears in the trace;
the same holds for the starred variant. -/
theorem gists_C7_counterexample :
    specForwardedOpts pageRequest =
      some { page := 2, perPage := 5 } ∧
    networkCallsOf (listGistsHandler (.ok okGetClient) pageRequest) =
      [.callListStarred none] ∧
    Event.callListStarred (some { page := 2, perPage := 5 }) ∉
      (listGistsHandler (.ok okGetClient) pageRequest).trace ∧
    networkCallsOf (listStarredGistsHandler (.ok okGetClient) pageRequest) =
      [.callListStarred none] ∧
    Event.callListStarred (some { page := 2, perPage := 5 }) ∉
      (listStarredGistsHandler (.ok okGetClient) pageRequest).trace := by
  decide

/-- C7 as amended: the list handlers ignore the invocation request entirely
— whatever pagination parameters it carries — and always issue the remote
list call with a nil options pointer. -/
theorem gists_C7_amended :
    ∀ (c : GistsClient) (reqA reqB : CallToolRequest),
      networkCallsOf (listGistsHandler (.ok c) reqA) =
        [.callListStarred none] ∧
      networkCallsOf (listStarredGistsHandler (.ok c) reqB) =
        [.callListStarred none] ∧
      listGistsHandler (.ok c) reqA = listGistsHandler (.ok c) reqB ∧
      listStarredGistsHandler (.ok c) reqA =
        listStarredGistsHandler (.ok c) reqB := by
  intro c reqA reqB
  refine ⟨?_, ?_, rfl, rfl⟩
  · unfold listGistsHandler
    cases herr : (c.listStarred none).err with
    | some e => simp [networkCallsOf, isNetworkCall, herr]
    | none =>
      by_cases h200 : (c.listStarred none).resp.statusCode = 200
      · simp [networkCallsOf, isNetworkCall, herr, h200]
      · cases hb : (c.listStarred none).resp.body with
        | error e => simp [networkCallsOf, isNetworkCall, herr, h200, hb]
        | ok b => simp [networkCallsOf, isNetworkCall, herr, h200, hb]
  · unfold listStarredGistsHandler
    cases herr : (c.listStarred none).err with
    | some e => simp [networkCallsOf, isNetworkCall, herr]
    | none =>
      by_cases h200 : (c.listStarred none).resp.statusCode = 200
      · simp [networkCallsOf, isNetworkCall, herr, h200]
      · cases hb : (c.listStarred none).resp.body with
        | error e => simp [networkCallsOf, isNetworkCall, herr, h200, hb]
        | ok b => simp [networkCallsOf, isNetworkCall, herr, h200, hb]

/-- C8: every invocation of any of the three handlers issues at most one
remote network call, and exactly one whenever parameter extraction and
client acquisition succeed; no branch issues a second (retried) call. -/
theorem gists_C8 :
    ∀ (gc : Except String GistsClient) (req : CallToolRequest),
      (networkCallCount (getGistHandler gc req) ≤ 1 ∧
       networkCallCount (listGistsHandler gc req) ≤ 1 ∧
       networkCallCount (listStarredGistsHandler gc req) ≤ 1) ∧
      (∀ c, gc = Except.ok c →
        ((∃ gid, requiredParamString req "gist_id" = .ok gid) →
           networkCallCount (getGistHandler gc req) = 1) ∧
        networkCallCount (listGistsHandler gc req) = 1 ∧
        networkCallCount (listStarredGistsHandler gc req) = 1) := by
  have hget : ∀ (c : GistsClient) (req : CallToolRequest) (gid : String),
      requiredParamString req "gist_id" = .ok gid →
      networkCallCount (getGistHandler (.ok c) req) = 1 := by
    intro c req gid hv
    unfold getGistHandler
    cases herr : (c.get gid).err with
    | some e => simp [networkCallCount, networkCallsOf, isNetworkCall, hv, herr]
    | none =>
      by_cases h200 : (c.get gid).resp.statusCode = 200
      · simp [networkCallCount, networkCallsOf, isNetworkCall, hv, herr, h200]
      · cases hb : (c.get gid).resp.body with
        | error e =>
            simp [networkCallCount, networkCallsOf, isNetworkCall, hv, herr,
              h200, hb]
        | ok b =>
            simp [networkCallCount, networkCallsOf, isNetworkCall, hv, herr,
              h200, hb]
  have hlist : ∀ (c : GistsClient) (req : CallToolRequest),
      networkCallCount (listGistsHandler (.ok c) req) = 1 := by
    intro c req
    unfold listGistsHandler
    cases herr : (c.listStarred none).err with
    | some e => simp [networkCallCount, networkCallsOf, isNetworkCall, herr]
    | none =>
      by_cases h200 : (c.listStarred none).resp.statusCode = 200
      · simp [networkCallCount, networkCallsOf, isNetworkCall, herr, h200]
      · cases hb : (c.listStarred none).resp.body with
        | error e =>
            simp [networkCallCount, networkCallsOf, isNetworkCall, herr, h200,
              hb]
        | ok b =>
            simp [networkCallCount, networkCallsOf, isNetworkCall, herr, h200,
              hb]
  have hstar : ∀ (c : GistsClient) (req : CallToolRequest),
      networkCallCount (listStarredGistsHandler (.ok c) req) = 1 := by
    intro c req
    unfold listStarredGistsHandler
    cases herr : (c.listStarred none).err with
    | some e => simp [networkCallCount, networkCallsOf, isNetworkCall, herr]
    | none =>
      by_cases h200 : (c.listStarred none).resp.statusCode = 200
      · simp [networkCallCount, networkCallsOf, isNetworkCall, herr, h200]
      · cases hb : (c.listStarred none).resp.body with
        | error e =>
            simp [networkCallCount, networkCallsOf, isNetworkCall, herr, h200,
              hb]
        | ok b =>
            simp [networkCallCount, networkCallsOf, isNetworkCall, herr, h200,
              hb]
  intro gc req
  constructor
  · cases gc with
    | error e =>
        refine ⟨?_, ?_, ?_⟩ <;>
          cases hv : requiredParamString req "gist_id" <;>
          simp [getGistHandler, listGistsHandler, listStarredGistsHandler,
            networkCallCount, networkCallsOf, isNetworkCall, hv]
    | ok c =>
        refine ⟨?_, (hlist c req).le, (hstar c req).le⟩
        cases hv : requiredParamString req "gist_id" with
        | error e =>
            simp [getGistHandler, networkCallCount, networkCallsOf,
              isNetworkCall, hv]
        | ok gid => exact (hget c req gid hv).le
  · intro c hc
    subst hc
    exact ⟨fun ⟨gid, hv⟩ => hget c req gid hv, hlist c req, hstar c req⟩

/-- Witness for C8 at a concrete input: with a valid request and a working
factory, `GetGist` issues exactly one network call. -/
theorem gists_C8_witness :
    (∃ gid, requiredParamString demoRequest "gist_id" = .ok gid) ∧
    networkCallCount (getGistHandler (.ok okGetClient) demoRequest) = 1 ∧
    networkCallCount (listGistsHandler (.ok okGetClient) demoRequest) = 1 := by
  refine ⟨⟨"42", rfl⟩, ?_, ?_⟩
  · exact ((gists_C8 (.ok okGetClient) demoRequest).2 okGetClient rfl).1
      ⟨"42", rfl⟩
  · exact ((gists_C8 (.ok okGetClient) demoRequest).2 okGetClient rfl).2.1

/-- C10: the `GetGist` descriptor declares the required `gist_id` parameter
with a numeric schema type, while the handler extracts it as a string: a
request supplying `gist_id` as a number (conforming to the declared schema)
gets a structured error back with no client acquisition and no network call,
and only a non-empty string-valued `gist_id` passes validation. -/
theorem gists_C10 :
    getGistTool.params =
      [{ name := "gist_id", type := SchemaType.number, required := true }] ∧
    (∀ (gc : Except String GistsClient) (req : CallToolRequest) (n : Int),
       lookupArg req "gist_id" = some (.jNum n) →
       getGistHandler gc req =
         { result := some
             (.errorContent "parameter gist_id is not of type string")
           err := none, trace := [] }) ∧
    (∀ (req : CallToolRequest) (s : String),
       lookupArg req "gist_id" = some (.jStr s) → s ≠ "" →
       requiredParamString req "gist_id" = .ok s) := by
  refine ⟨rfl, ?_, ?_⟩
  · intro gc req n hl
    have hv : requiredParamString req "gist_id" =
        .error "parameter gist_id is not of type string" := by
      unfold requiredParamString
      rw [hl]
      rfl
    simp [getGistHandler, hv]
  · intro req s hl hs
    unfold requiredParamString
    rw [hl]
    simp [hs]

/-- Witness for C10 at a concrete input: a request carrying `gist_id = 7`
(a number, as the declared schema invites) is rejected with a structured
error, an empty trace, and no network call. -/
theorem gists_C10_witness :
    lookupArg numericRequest "gist_id" = some (.jNum 7) ∧
    getGistHandler (.ok okGetClient) numericRequest =
      { result := some (.errorContent "parameter gist_id is not of type string")
        err := none, trace := [] } := by
  refine ⟨rfl, ?_⟩
  exact gists_C10.2.1 (.ok okGetClient) numericRequest 7 rfl
